import Mathlib

/-!
Verification of the account-management core of the ISO_Standards Django
backend (`src/Backend/accounts/models.py`, `src/Backend/config/urls.py`,
`src/Backend/config/settings/__init__.py`).

The repository's own code delegates to Django framework primitives
(`BaseUserManager.normalize_email`, `AbstractBaseUser.set_password` /
`check_password` / `has_usable_password`, `PermissionsMixin.has_perm`,
`django.contrib.auth.backends.ModelBackend.authenticate`, the database
unique constraint on `email`).  Those framework behaviours are embedded
here faithfully alongside the repository code that invokes them: password
hashing is modelled abstractly as an injective constructor (a one-way
hash that verifies exactly the original raw secret), the persistence
layer as a list of records guarded by the unique-email constraint, and
exceptions as an `Except` error type.
-/

deriving instance DecidableEq for Except

namespace ISOBackend

/-- Exceptions that the account core can surface.  `valueError` is what
`CustomUserManager.create_user` raises on a missing email;
`integrityError` is the database uniqueness violation raised by
`user.save()`; `validationError` exists in the universe of Django
exceptions (it is what form validation raises) but is never raised by
this code path. -/
inductive DjangoError where
  | valueError (msg : String)
  | validationError (msg : String)
  | integrityError
deriving DecidableEq, Repr

/-- Stored credential, modelling Django's hashed password field.
`hashed raw` stands for the one-way hash of `raw` (hashing is modelled
abstractly: the hash verifies exactly against the original raw secret);
`unusable` models the unusable-password marker that
`set_password(None)` stores. -/
inductive StoredPassword where
  | hashed (raw : String)
  | unusable
deriving DecidableEq, Repr

/-- Django `AbstractBaseUser.set_password`: `None` stores an unusable
password, otherwise the hash of the raw password. -/
def set_password (raw : Option String) : StoredPassword :=
  match raw with
  | none => StoredPassword.unusable
  | some r => StoredPassword.hashed r

/-- Django `AbstractBaseUser.check_password`: verification fails against
an unusable password for every supplied raw credential, and otherwise
succeeds exactly when the raw credential matches the hashed one. -/
def check_password (raw : String) (stored : StoredPassword) : Bool :=
  match stored with
  | StoredPassword.hashed r => raw == r
  | StoredPassword.unusable => false

/-- Django `AbstractBaseUser.has_usable_password`. -/
def has_usable_password (stored : StoredPassword) : Bool :=
  match stored with
  | StoredPassword.hashed _ => true
  | StoredPassword.unusable => false

/-- The `CustomUser` record of `accounts/models.py`, with the field
defaults declared there (`is_active=True`, `is_staff=False`) and by
`PermissionsMixin` (`is_superuser=False`, empty permission and group
grants). -/
structure CustomUser where
  email : String
  first_name : Option String := none
  last_name : Option String := none
  is_active : Bool := true
  is_staff : Bool := false
  is_superuser : Bool := false
  password : StoredPassword := StoredPassword.unusable
  user_permissions : List String := []
  group_permissions : List String := []
deriving DecidableEq, Repr

/-- The `**extra_fields` keyword arguments accepted by
`CustomUserManager.create_user` / `create_superuser`: each field is
`some v` when the caller passed it and `none` when omitted (so that
`dict.setdefault` is expressible). -/
structure ExtraFields where
  first_name : Option String := none
  last_name : Option String := none
  is_active : Option Bool := none
  is_staff : Option Bool := none
  is_superuser : Option Bool := none
deriving DecidableEq, Repr

/-- Python `str.strip()` on both ends, as used by
`BaseUserManager.normalize_email`. -/
def pyStrip (s : String) : String :=
  String.mk (((s.data.dropWhile Char.isWhitespace).reverse.dropWhile
    Char.isWhitespace).reverse)

/-- Python `str.rsplit("@", 1)` restricted to the two-piece success
case: split at the LAST occurrence of the at sign, `none` when the
character does not occur. -/
def rsplitAtSign (l : List Char) : Option (List Char × List Char) :=
  match l.reverse.dropWhile (fun c => c ≠ '@') with
  | [] => none
  | _ :: restRev =>
      some (restRev.reverse, (l.reverse.takeWhile (fun c => c ≠ '@')).reverse)

/-- Django `BaseUserManager.normalize_email`: strip the address, split
at the last at sign, lower-case the domain part and leave the local
part untouched; an address without an at sign is returned unchanged. -/
def normalize_email (email : String) : String :=
  match rsplitAtSign (pyStrip email).data with
  | none => email
  | some (name, domain) => String.mk (name ++ '@' :: domain.map Char.toLower)

/-- The database write performed by `user.save()`: the unique constraint
on `CustomUser.email` rejects the insert with an `IntegrityError` when a
record with the same stored email already exists, otherwise the record
is appended to the store. -/
def saveNew (store : List CustomUser) (u : CustomUser) :
    Except DjangoError (List CustomUser) :=
  if store.any (fun v => v.email == u.email) then
    Except.error DjangoError.integrityError
  else
    Except.ok (store ++ [u])

/-- Record built by `self.model(email=self.normalize_email(email), **extra_fields)`
followed by `user.set_password(password)`: the record built by
`create_user` before it is saved.  Omitted extra fields take the model
defaults. -/
def buildUser (e : String) (password : Option String) (extra : ExtraFields) :
    CustomUser :=
  { email := normalize_email e
    first_name := extra.first_name
    last_name := extra.last_name
    is_active := extra.is_active.getD true
    is_staff := extra.is_staff.getD false
    is_superuser := extra.is_superuser.getD false
    password := set_password password }

/-- Method `CustomUserManager.create_user`: reject a falsy (`None` or empty)
email with `ValueError("The Email field must be set")`, normalize the
email, build the user from the extra fields and the model defaults,
set the password (unusable when omitted) and save.  On any error the
store is left untouched (the error carries no new store). -/
def create_user (store : List CustomUser) (email : Option String)
    (password : Option String) (extra : ExtraFields) :
    Except DjangoError (CustomUser × List CustomUser) :=
  match email with
  | none => Except.error (DjangoError.valueError "The Email field must be set")
  | some e =>
      if e = "" then
        Except.error (DjangoError.valueError "The Email field must be set")
      else
        match saveNew store (buildUser e password extra) with
        | Except.error err => Except.error err
        | Except.ok s => Except.ok (buildUser e password extra, s)

/-- Method `CustomUserManager.create_superuser`:
`extra_fields.setdefault("is_staff", True)` and
`extra_fields.setdefault("is_superuser", True)`, then delegate to
`create_user`. -/
def create_superuser (store : List CustomUser) (email : Option String)
    (password : Option String) (extra : ExtraFields) :
    Except DjangoError (CustomUser × List CustomUser) :=
  create_user store email password
    { extra with
      is_staff := some (extra.is_staff.getD true)
      is_superuser := some (extra.is_superuser.getD true) }

/-- Lookup `CustomUserManager.get_by_natural_key` / `objects.get(email=...)`:
lookup by exact stored email. -/
def getByEmail (store : List CustomUser) (e : String) : Option CustomUser :=
  store.find? (fun u => u.email == e)

/-- Django `PermissionsMixin.has_perm` together with
`ModelBackend.has_perm`: an ACTIVE superuser passes every check; an
inactive user has no permissions at all (`ModelBackend` returns the
empty permission set for inactive users); otherwise the explicit and
group-inherited grants are consulted. -/
def has_perm (u : CustomUser) (perm : String) : Bool :=
  if u.is_active && u.is_superuser then true
  else u.is_active && (u.user_permissions ++ u.group_permissions).contains perm

/-- Function `django.contrib.auth.authenticate` through `ModelBackend` with
`USERNAME_FIELD = "email"`: fail uniformly (return `none`) unless a
record with the supplied email exists, the supplied credential verifies
against its stored hash, and the record is active
(`user_can_authenticate`). -/
def authenticate (store : List CustomUser) (email : Option String)
    (password : Option String) : Option CustomUser :=
  match email, password with
  | some e, some pw =>
      match getByEmail store e with
      | none => none
      | some u =>
          if check_password pw u.password && u.is_active then some u else none
  | _, _ => none

/-- Flipping a user's `is_active` flag in place (`user.is_active = b;
user.save()`), as done in the integration tests. -/
def setActiveByEmail (store : List CustomUser) (e : String) (b : Bool) :
    List CustomUser :=
  store.map (fun u => if u.email == e then { u with is_active := b } else u)

/-- An HTTP JSON response: status code plus the JSON object, modelled as
an association list of string fields. -/
structure JsonResponseModel where
  status : Nat
  body : List (String × String)
deriving DecidableEq, Repr

/-- View `health_check` of `config/urls.py`: probe the database with `SELECT 1`
inside try/except; on success answer 200 with
`{"status": "healthy", "database": "connected"}`, on any exception
answer 503 with `{"status": "unhealthy", "error": str(e)}`.  The probe
outcome is the function's input; totality of the function is the
never-propagates-an-exception guarantee. -/
def health_check (probe : Except String Unit) : JsonResponseModel :=
  match probe with
  | Except.ok _ =>
      { status := 200
        body := [("status", "healthy"), ("database", "connected")] }
  | Except.error e =>
      { status := 503
        body := [("status", "unhealthy"), ("error", e)] }

/-- The three settings modules of `config/settings/`. -/
inductive SettingsModule where
  | development
  | test
  | production
deriving DecidableEq, Repr

/-- Module `config/settings/__init__.py`: `environment =
os.environ.get("DJANGO_ENV", "development")`, then import production on
"production", test on "test", development otherwise. -/
def selectSettings (djangoEnv : Option String) : SettingsModule :=
  let environment := djangoEnv.getD "development"
  if environment = "production" then SettingsModule.production
  else if environment = "test" then SettingsModule.test
  else SettingsModule.development

/-! ## Helper lemmas about `create_user` -/

/-- Success case: `create_user` succeeds exactly by appending the built record when
the email is non-empty and no stored record already carries the
normalized email. -/
theorem create_user_ok_of_free {store : List CustomUser} {e : String}
    {pw : Option String} {extra : ExtraFields} (he : e ≠ "")
    (ha : ∀ v ∈ store, v.email ≠ (buildUser e pw extra).email) :
    create_user store (some e) pw extra =
      Except.ok (buildUser e pw extra, store ++ [buildUser e pw extra]) := by
  have hany : (store.any fun v => v.email == (buildUser e pw extra).email) = false := by
    simp only [List.any_eq_false, beq_iff_eq]
    exact ha
  simp [create_user, saveNew, he, hany]

/-- Inversion of a successful `create_user` call: the returned record is
the built one, the new store is the old store with the record appended,
and no old record carried the same email. -/
theorem create_user_ok_inv {store : List CustomUser} {e : String}
    {pw : Option String} {extra : ExtraFields} {u : CustomUser}
    {s : List CustomUser}
    (h : create_user store (some e) pw extra = Except.ok (u, s)) :
    e ≠ "" ∧ u = buildUser e pw extra ∧ s = store ++ [u] ∧
      ∀ v ∈ store, v.email ≠ u.email := by
  by_cases he : e = ""
  · subst he; simp [create_user] at h
  · by_cases hany : (store.any fun v => v.email == (buildUser e pw extra).email) = true
    · simp [create_user, saveNew, he, hany] at h
    · simp only [Bool.not_eq_true] at hany
      simp only [create_user, saveNew, he, if_neg he, hany, Bool.false_eq_true,
        if_false, Except.ok.injEq, Prod.mk.injEq] at h
      obtain ⟨hu, hs⟩ := h
      refine ⟨he, hu.symm, by rw [← hs, hu], ?_⟩
      intro v hv
      rw [← hu]
      have := List.any_eq_false.mp hany v hv
      simpa using this

/-- A failed `create_user` call returns an error and no store: the
persistence state visible to the caller is unchanged. -/
theorem create_user_error_no_store {store : List CustomUser}
    {email : Option String} {pw : Option String} {extra : ExtraFields}
    {err : DjangoError}
    (h : create_user store email pw extra = Except.error err) :
    ∀ u s, create_user store email pw extra ≠ Except.ok (u, s) := by
  intro u s hc
  rw [h] at hc
  exact Except.noConfusion hc

/-! ## Helper lemmas about lists -/

/-- List fact: `dropWhile` is the identity on a list none of whose elements
satisfy the predicate. -/
theorem dropWhile_all_false {α : Type} (p : α → Bool) (l : List α)
    (h : ∀ c ∈ l, p c = false) : l.dropWhile p = l := by
  cases l with
  | nil => rfl
  | cons x xs =>
      have hx := h x (List.mem_cons_self x xs)
      simp [List.dropWhile_cons, hx]

/-- List fact: `takeWhile` over a list whose prefix satisfies the predicate and
whose next element does not returns exactly the prefix. -/
theorem takeWhile_append_cons {α : Type} (p : α → Bool) (xs ys : List α)
    (y : α) (hxs : ∀ x ∈ xs, p x = true) (hy : p y = false) :
    (xs ++ y :: ys).takeWhile p = xs := by
  induction xs with
  | nil => simp [List.takeWhile_cons, hy]
  | cons a t ih =>
      have ha := hxs a (List.mem_cons_self a t)
      simp only [List.cons_append, List.takeWhile_cons, ha, if_true]
      rw [ih (fun x hx => hxs x (List.mem_cons_of_mem a hx))]

/-- List fact: `dropWhile` over a list whose prefix satisfies the predicate and
whose next element does not drops exactly the prefix. -/
theorem dropWhile_append_cons {α : Type} (p : α → Bool) (xs ys : List α)
    (y : α) (hxs : ∀ x ∈ xs, p x = true) (hy : p y = false) :
    (xs ++ y :: ys).dropWhile p = y :: ys := by
  induction xs with
  | nil => simp [List.dropWhile_cons, hy]
  | cons a t ih =>
      have ha := hxs a (List.mem_cons_self a t)
      simp only [List.cons_append, List.dropWhile_cons, ha, if_true]
      exact ih (fun x hx => hxs x (List.mem_cons_of_mem a hx))

/-- Looking up the email of a freshly appended record finds that record
when no earlier record carries the email. -/
theorem getByEmail_append_new {s₀ : List CustomUser} {u : CustomUser}
    (hfree : ∀ v ∈ s₀, v.email ≠ u.email) :
    getByEmail (s₀ ++ [u]) u.email = some u := by
  unfold getByEmail
  rw [List.find?_append]
  have h0 : s₀.find? (fun v => v.email == u.email) = none :=
    List.find?_eq_none.mpr (fun x hx => by simpa using hfree x hx)
  rw [h0]
  simp

/-- In a store with pairwise-distinct emails, `find?` on a member's
email returns exactly that member. -/
theorem find?_eq_some_of_mem_distinct {s : List CustomUser}
    (hd : s.Pairwise (fun a b => a.email ≠ b.email)) {u : CustomUser}
    (hu : u ∈ s) : s.find? (fun v => v.email == u.email) = some u := by
  induction s with
  | nil => cases hu
  | cons h t ih =>
      rcases List.pairwise_cons.mp hd with ⟨hh, ht⟩
      rcases List.mem_cons.mp hu with rfl | hut
      · exact List.find?_cons_of_pos t (by simp)
      · have hne : (h.email == u.email) = false := by
          simpa using hh u hut
        rw [List.find?_cons_of_neg t (by simp [hne])]
        exact ih ht hut

/-- Update fact: `setActiveByEmail` rewrites the `is_active` flag of exactly the
records found under the given email. -/
theorem find?_setActiveByEmail (s : List CustomUser) (e : String) (b : Bool) :
    (setActiveByEmail s e b).find? (fun v => v.email == e) =
      (s.find? (fun v => v.email == e)).map
        (fun u => { u with is_active := b }) := by
  unfold setActiveByEmail
  rw [List.find?_map]
  have hpf : ((fun v : CustomUser => v.email == e) ∘
      (fun u : CustomUser =>
        if u.email == e then { u with is_active := b } else u)) =
      fun u : CustomUser => u.email == e := by
    funext u
    by_cases h : u.email = e
    · simp [Function.comp, h]
    · simp [Function.comp, h]
  rw [hpf]
  cases hf : List.find? (fun v : CustomUser => v.email == e) s with
  | none => rfl
  | some u =>
      have hp := List.find?_some hf
      have heq : u.email = e := by simpa using hp
      simp [heq]

/-! ## Claim theorems -/

/-- Claim C1, counterexample: calling the factory with the empty email
fails with `ValueError("The Email field must be set")`, which is not
the `ValidationError` with message "the email field must be set" that
the claim asserts (both the exception class and the message casing
differ). -/
theorem create_user_empty_email_not_validationError :
    create_user [] (some "") (some "pass123") {} =
      Except.error (DjangoError.valueError "The Email field must be set") ∧
    create_user [] (some "") (some "pass123") {} ≠
      Except.error (DjangoError.validationError "the email field must be set") := by
  decide

/-- Claim C1, amended: for every call of `create_user` with an empty or
`None` email, the call fails with a `ValueError` carrying the message
"The Email field must be set", and no account is persisted (the call
never returns a success carrying a store). -/
theorem create_user_rejects_missing_email (store : List CustomUser)
    (pw : Option String) (extra : ExtraFields) (email : Option String)
    (h : email = none ∨ email = some "") :
    create_user store email pw extra =
      Except.error (DjangoError.valueError "The Email field must be set") ∧
    ∀ u s, create_user store email pw extra ≠ Except.ok (u, s) := by
  have herr : create_user store email pw extra =
      Except.error (DjangoError.valueError "The Email field must be set") := by
    rcases h with h | h <;> subst h <;> rfl
  exact ⟨herr, create_user_error_no_store herr⟩

/-- Claim C1, witness for the amended theorem at `email = none`. -/
theorem create_user_rejects_missing_email_witness :
    create_user [] none (some "pw") {} =
      Except.error (DjangoError.valueError "The Email field must be set") ∧
    ∀ u s, create_user [] none (some "pw") {} ≠ Except.ok (u, s) :=
  create_user_rejects_missing_email [] (some "pw") {} none (Or.inl rfl)

/-- Claim C8: the health-check handler answers 200 with
`{"status": "healthy", "database": "connected"}` when the database
probe succeeds, and 503 with an error payload when the probe raises;
being a total function of the probe outcome, it never propagates an
exception to its caller. -/
theorem health_check_spec (probe : Except String Unit) :
    (probe = Except.ok () →
      health_check probe =
        { status := 200
          body := [("status", "healthy"), ("database", "connected")] }) ∧
    (∀ msg, probe = Except.error msg →
      (health_check probe).status = 503 ∧
      (health_check probe).body = [("status", "unhealthy"), ("error", msg)]) := by
  constructor
  · intro h; subst h; rfl
  · intro msg h; subst h; exact ⟨rfl, rfl⟩

/-- Claim C8, witness: the handler evaluated on a succeeding probe and
on a failing probe. -/
theorem health_check_spec_witness :
    health_check (Except.ok ()) =
      { status := 200
        body := [("status", "healthy"), ("database", "connected")] } ∧
    (health_check (Except.error "connection refused")).status = 503 :=
  ⟨(health_check_spec (Except.ok ())).1 rfl,
   ((health_check_spec (Except.error "connection refused")).2
      "connection refused" rfl).1⟩

/-- Claim C9: the settings selector maps the deployment-mode indicator
"production" to the production module, "test" to the test module, and
an absent indicator to the development default. -/
theorem selectSettings_spec :
    selectSettings (some "production") = SettingsModule.production ∧
    selectSettings (some "test") = SettingsModule.test ∧
    selectSettings none = SettingsModule.development := by
  decide

/-- Claim C2: for every non-empty email whose normalized form is not
yet in the store, `create_user` stores the record under the normalized
email (domain case-folded by `normalize_email`), and a subsequent
lookup by the case-normalized form of the email returns exactly the
created account. -/
theorem create_user_normalizes_and_lookup (s₀ : List CustomUser)
    (e : String) (pw : Option String) (extra : ExtraFields) (he : e ≠ "")
    (hfree : ∀ v ∈ s₀, v.email ≠ normalize_email e) :
    ∃ u s, create_user s₀ (some e) pw extra = Except.ok (u, s) ∧
      u.email = normalize_email e ∧
      getByEmail s (normalize_email e) = some u := by
  have hb : (buildUser e pw extra).email = normalize_email e := rfl
  have h := @create_user_ok_of_free s₀ e pw extra he (by rw [hb]; exact hfree)
  refine ⟨buildUser e pw extra, s₀ ++ [buildUser e pw extra], h, hb, ?_⟩
  rw [← hb]
  exact getByEmail_append_new (by rw [hb]; exact hfree)

/-- Claim C2, witness at the email of the repository's own
normalization test, `Test@EXAMPLE.com`. -/
theorem create_user_normalizes_and_lookup_witness :
    ∃ u s, create_user [] (some "Test@EXAMPLE.com") (some "pass123") {} =
        Except.ok (u, s) ∧
      u.email = normalize_email "Test@EXAMPLE.com" ∧
      getByEmail s (normalize_email "Test@EXAMPLE.com") = some u :=
  create_user_normalizes_and_lookup [] "Test@EXAMPLE.com" (some "pass123") {}
    (by decide) (by intro v hv; cases hv)

/-- Claim C3: with none of the three flags overridden in the extra
fields, `create_superuser` produces an account with
`is_staff = is_superuser = true`, while `create_user` produces an
account with `is_staff = is_superuser = false` and `is_active =
true`. -/
theorem create_superuser_and_user_flag_defaults (s : List CustomUser)
    (e : String) (pw : Option String) (extra : ExtraFields) (he : e ≠ "")
    (hstaff : extra.is_staff = none) (hsuper : extra.is_superuser = none)
    (hactive : extra.is_active = none)
    (hfree : ∀ v ∈ s, v.email ≠ normalize_email e) :
    (∃ u s', create_superuser s (some e) pw extra = Except.ok (u, s') ∧
      u.is_staff = true ∧ u.is_superuser = true ∧ u.is_active = true) ∧
    (∃ u s', create_user s (some e) pw extra = Except.ok (u, s') ∧
      u.is_staff = false ∧ u.is_superuser = false ∧ u.is_active = true) := by
  constructor
  · refine ⟨buildUser e pw
      { extra with is_staff := some true, is_superuser := some true },
      s ++ [buildUser e pw
        { extra with is_staff := some true, is_superuser := some true }],
      ?_, rfl, rfl, by simp [buildUser, hactive]⟩
    unfold create_superuser
    simp only [hstaff, hsuper, Option.getD_none]
    exact create_user_ok_of_free he hfree
  · refine ⟨buildUser e pw extra, s ++ [buildUser e pw extra],
      create_user_ok_of_free he hfree, ?_, ?_, ?_⟩
    · simp [buildUser, hstaff]
    · simp [buildUser, hsuper]
    · simp [buildUser, hactive]

/-- Claim C3, witness at `admin@example.com` on the empty store. -/
theorem create_superuser_and_user_flag_defaults_witness :
    (∃ u s', create_superuser [] (some "admin@example.com") (some "adminpass") {} =
        Except.ok (u, s') ∧
      u.is_staff = true ∧ u.is_superuser = true ∧ u.is_active = true) ∧
    (∃ u s', create_user [] (some "admin@example.com") (some "adminpass") {} =
        Except.ok (u, s') ∧
      u.is_staff = false ∧ u.is_superuser = false ∧ u.is_active = true) :=
  create_superuser_and_user_flag_defaults [] "admin@example.com"
    (some "adminpass") {} (by decide) rfl rfl rfl (by intro v hv; cases hv)

/-- Claim C4: after a successful `create_user`, any second creation
whose normalized email equals the first one's fails with the
persistence layer's `IntegrityError`, which `create_user` propagates
uncaught, and the failed attempt returns no store (the store is
unchanged). -/
theorem create_user_duplicate_email_integrityError (s₀ s₁ : List CustomUser)
    (u : CustomUser) (e₁ e₂ : String) (pw₁ pw₂ : Option String)
    (x₁ x₂ : ExtraFields)
    (h₁ : create_user s₀ (some e₁) pw₁ x₁ = Except.ok (u, s₁))
    (he₂ : e₂ ≠ "") (heq : normalize_email e₂ = normalize_email e₁) :
    create_user s₁ (some e₂) pw₂ x₂ =
      Except.error DjangoError.integrityError ∧
    ∀ u' s', create_user s₁ (some e₂) pw₂ x₂ ≠ Except.ok (u', s') := by
  obtain ⟨he₁, hu, hs, _⟩ := create_user_ok_inv h₁
  have humem : u ∈ s₁ := by rw [hs]; exact List.mem_append_right s₀ (List.mem_cons_self u [])
  have huemail : u.email = normalize_email e₁ := by rw [hu]; rfl
  have hany : (s₁.any fun v => v.email == (buildUser e₂ pw₂ x₂).email) = true := by
    refine List.any_eq_true.mpr ⟨u, humem, ?_⟩
    show (u.email == (buildUser e₂ pw₂ x₂).email) = true
    have : (buildUser e₂ pw₂ x₂).email = normalize_email e₂ := rfl
    rw [this, heq, huemail]
    exact beq_self_eq_true _
  have herr : create_user s₁ (some e₂) pw₂ x₂ =
      Except.error DjangoError.integrityError := by
    simp [create_user, saveNew, he₂, hany]
  exact ⟨herr, fun u' s' hc => by rw [herr] at hc; exact Except.noConfusion hc⟩

/-- Claim C4, witness: `a@EXAMPLE.com` then `a@example.COM`, whose
normalized forms coincide. -/
theorem create_user_duplicate_email_integrityError_witness :
    create_user
        [{ email := "a@example.com", password := StoredPassword.hashed "p1" }]
        (some "a@example.COM") (some "p2") {} =
      Except.error DjangoError.integrityError ∧
    ∀ u' s', create_user
        [{ email := "a@example.com", password := StoredPassword.hashed "p1" }]
        (some "a@example.COM") (some "p2") {} ≠ Except.ok (u', s') :=
  create_user_duplicate_email_integrityError []
    [{ email := "a@example.com", password := StoredPassword.hashed "p1" }]
    { email := "a@example.com", password := StoredPassword.hashed "p1" }
    "a@EXAMPLE.com" "a@example.COM" (some "p1") (some "p2") {} {}
    (by decide) (by decide) (by decide)

/-- Claim C5: an account created with the credential omitted exists in
the resulting store, reports no usable credential, and fails both
direct password verification and the full authentication path for
every supplied credential, including the empty one. -/
theorem create_user_without_password_unusable (s₀ : List CustomUser)
    (e : String) (extra : ExtraFields) (he : e ≠ "")
    (hfree : ∀ v ∈ s₀, v.email ≠ normalize_email e) :
    ∃ u s, create_user s₀ (some e) none extra = Except.ok (u, s) ∧
      u ∈ s ∧ has_usable_password u.password = false ∧
      ∀ raw, check_password raw u.password = false ∧
        authenticate s (some u.email) (some raw) = none := by
  have hb : (buildUser e none extra).email = normalize_email e := rfl
  have hfree' : ∀ v ∈ s₀, v.email ≠ (buildUser e none extra).email := by
    rw [hb]; exact hfree
  refine ⟨buildUser e none extra, s₀ ++ [buildUser e none extra],
    create_user_ok_of_free he hfree', ?_, rfl, ?_⟩
  · exact List.mem_append_right s₀ (List.mem_cons_self _ [])
  · intro raw
    refine ⟨rfl, ?_⟩
    show authenticate (s₀ ++ [buildUser e none extra])
      (some (buildUser e none extra).email) (some raw) = none
    have hget := getByEmail_append_new hfree'
    simp only [authenticate]
    rw [hget]
    simp [check_password, buildUser, set_password]

/-- Claim C6, counterexample: an account with `is_superuser = true`
but `is_active = false` — reachable through the factory itself by
overriding the flags in the extra fields — fails every permission
check, so `has_perm` is not unconditionally true on superusers. -/
theorem has_perm_inactive_superuser_false :
    create_user [] (some "x@example.com") (some "pw")
        { is_superuser := some true, is_active := some false } =
      Except.ok
        ({ email := "x@example.com", is_active := false, is_superuser := true,
           password := StoredPassword.hashed "pw" },
         [{ email := "x@example.com", is_active := false, is_superuser := true,
            password := StoredPassword.hashed "pw" }]) ∧
    has_perm
      { email := "x@example.com", is_active := false, is_superuser := true,
        password := StoredPassword.hashed "pw" } "any.permission" = false := by
  decide

/-- Claim C6, amended: `has_perm` is true for every capability string
whenever the account is a superuser AND active (as freshly created
privileged accounts are), and a freshly created standard account (no
overrides, hence no grants) fails every capability check. -/
theorem has_perm_superuser_and_fresh (u : CustomUser) (c : String) :
    (u.is_superuser = true → u.is_active = true → has_perm u c = true) ∧
    (∀ s₀ e pw v s, create_user s₀ (some e) pw {} = Except.ok (v, s) →
      has_perm v c = false) := by
  constructor
  · intro hsu hact
    simp [has_perm, hsu, hact]
  · intro s₀ e pw v s h
    obtain ⟨_, hv, _, _⟩ := create_user_ok_inv h
    rw [hv]
    simp [has_perm, buildUser]

/-- Claim C6, witness: an active superuser passes an arbitrary
capability check, and a freshly created standard account fails it. -/
theorem has_perm_superuser_and_fresh_witness :
    has_perm { email := "super@example.com", is_superuser := true }
      "any.permission" = true ∧
    ∀ v s, create_user [] (some "regular@example.com") (some "pass123") {} =
        Except.ok (v, s) → has_perm v "any.permission" = false :=
  ⟨(has_perm_superuser_and_fresh
      { email := "super@example.com", is_superuser := true }
      "any.permission").1 rfl rfl,
   fun v s h =>
     (has_perm_superuser_and_fresh
       { email := "super@example.com", is_superuser := true }
       "any.permission").2 [] "regular@example.com" (some "pass123") v s h⟩

/-- Claim C7: in a store with pairwise-distinct emails, authentication
succeeds exactly when a record with the supplied email exists, the
supplied credential verifies against its stored hash, and the record
is active; every failing combination returns the same `none`.
Deactivating the matching account makes authentication with correct
credentials fail, and re-activating restores success. -/
theorem authenticate_spec (s : List CustomUser) (e pw : String)
    (hd : List.Pairwise (fun a b => a.email ≠ b.email) s) :
    ((∃ u, authenticate s (some e) (some pw) = some u) ↔
      ∃ u ∈ s, u.email = e ∧ check_password pw u.password = true ∧
        u.is_active = true) ∧
    (∀ u ∈ s, u.email = e → check_password pw u.password = true →
      authenticate (setActiveByEmail s e false) (some e) (some pw) = none ∧
      authenticate (setActiveByEmail s e true) (some e) (some pw) =
        some { u with is_active := true }) := by
  constructor
  · constructor
    · rintro ⟨u, hu⟩
      simp only [authenticate] at hu
      cases hf : getByEmail s e with
      | none => rw [hf] at hu; simp at hu
      | some v =>
          rw [hf] at hu
          by_cases hc : (check_password pw v.password && v.is_active) = true
          · have hv : v = u := by simpa [hc] using hu
            have hc' : check_password pw v.password = true ∧
                v.is_active = true := by simpa using hc
            rcases hc' with ⟨hcp, hca⟩
            have hf' : s.find? (fun w => w.email == e) = some v := hf
            have hmem : v ∈ s := List.mem_of_find?_eq_some hf'
            have hemail : v.email = e := by simpa using List.find?_some hf'
            exact ⟨v, hmem, hemail, hcp, hca⟩
          · simp [hc] at hu
    · rintro ⟨u, hmem, hemail, hcheck, hact⟩
      have hf : getByEmail s e = some u := by
        unfold getByEmail
        rw [← hemail]
        exact find?_eq_some_of_mem_distinct hd hmem
      exact ⟨u, by simp [authenticate, hf, hcheck, hact]⟩
  · intro u hmem hemail hcheck
    have hfs : s.find? (fun v => v.email == e) = some u := by
      rw [← hemail]
      exact find?_eq_some_of_mem_distinct hd hmem
    have hf0 : getByEmail (setActiveByEmail s e false) e =
        some { u with is_active := false } := by
      unfold getByEmail
      rw [find?_setActiveByEmail, hfs]
      rfl
    have hf1 : getByEmail (setActiveByEmail s e true) e =
        some { u with is_active := true } := by
      unfold getByEmail
      rw [find?_setActiveByEmail, hfs]
      rfl
    constructor
    · simp only [authenticate]
      rw [hf0]
      simp
    · simp only [authenticate]
      rw [hf1]
      simp [hcheck]

/-- Claim C7, witness: the account `auth@example.com` with credential
`testpass123`, deactivated then re-activated. -/
theorem authenticate_spec_witness :
    authenticate
        (setActiveByEmail
          [{ email := "auth@example.com",
             password := StoredPassword.hashed "testpass123" }]
          "auth@example.com" false)
        (some "auth@example.com") (some "testpass123") = none ∧
    authenticate
        (setActiveByEmail
          [{ email := "auth@example.com",
             password := StoredPassword.hashed "testpass123" }]
          "auth@example.com" true)
        (some "auth@example.com") (some "testpass123") =
      some { email := "auth@example.com", is_active := true,
             password := StoredPassword.hashed "testpass123" } :=
  (authenticate_spec
      [{ email := "auth@example.com",
         password := StoredPassword.hashed "testpass123" }]
      "auth@example.com" "testpass123" (List.pairwise_singleton _ _)).2
    { email := "auth@example.com",
      password := StoredPassword.hashed "testpass123" }
    (List.mem_cons_self _ _) rfl (by decide)

/-- Claim C5, witness at `social@example.com` on the empty store,
checking the empty credential among others via the quantifier. -/
theorem create_user_without_password_unusable_witness :
    ∃ u s, create_user [] (some "social@example.com") none {} =
        Except.ok (u, s) ∧
      u ∈ s ∧ has_usable_password u.password = false ∧
      ∀ raw, check_password raw u.password = false ∧
        authenticate s (some u.email) (some raw) = none :=
  create_user_without_password_unusable [] "social@example.com" {}
    (by decide) (by intro v hv; cases hv)

/-- On an address with no surrounding whitespace and an at-sign-free
domain, `normalize_email` lower-cases exactly the domain segment and
leaves the local part untouched. -/
theorem normalize_email_local_domain (l d : List Char)
    (hl : ∀ c ∈ l, c.isWhitespace = false)
    (hd : ∀ c ∈ d, c.isWhitespace = false ∧ c ≠ '@') :
    normalize_email (String.mk (l ++ '@' :: d)) =
      String.mk (l ++ '@' :: d.map Char.toLower) := by
  have hall : ∀ c ∈ l ++ '@' :: d, c.isWhitespace = false := by
    intro c hc
    rcases List.mem_append.mp hc with h | h
    · exact hl c h
    · rcases List.mem_cons.mp h with rfl | h
      · rfl
      · exact (hd c h).1
  have hstrip : pyStrip (String.mk (l ++ '@' :: d)) =
      String.mk (l ++ '@' :: d) := by
    unfold pyStrip
    rw [show (String.mk (l ++ '@' :: d)).data = l ++ '@' :: d from rfl,
      dropWhile_all_false _ _ hall,
      dropWhile_all_false _ _
        (by intro c hc; exact hall c (List.mem_reverse.mp hc)),
      List.reverse_reverse]
  have hxd : ∀ x ∈ d.reverse,
      (fun c : Char => decide ¬(c = '@')) x = true := by
    intro x hx
    simpa using (hd x (List.mem_reverse.mp hx)).2
  have hy : (fun c : Char => decide ¬(c = '@')) '@' = false := by decide
  have hsplit : rsplitAtSign (l ++ '@' :: d) = some (l, d) := by
    unfold rsplitAtSign
    have hrev : (l ++ '@' :: d).reverse = d.reverse ++ '@' :: l.reverse := by
      rw [List.reverse_append, List.reverse_cons, List.append_assoc,
        List.singleton_append]
    rw [hrev, dropWhile_append_cons _ _ _ _ hxd hy,
      takeWhile_append_cons _ _ _ _ hxd hy]
    simp
  unfold normalize_email
  rw [hstrip, show (String.mk (l ++ '@' :: d)).data = l ++ '@' :: d from rfl,
    hsplit]

/-- Two addresses sharing a domain but with different local parts are
different strings. -/
theorem mk_append_cons_ne (l₁ l₂ m : List Char) (hne : l₁ ≠ l₂) :
    String.mk (l₁ ++ '@' :: m) ≠ String.mk (l₂ ++ '@' :: m) := by
  intro h
  apply hne
  have hdata : l₁ ++ '@' :: m = l₂ ++ '@' :: m := congrArg String.data h
  have h' := congrArg List.length hdata
  simp only [List.length_append, List.length_cons] at h'
  exact (List.append_inj hdata (by omega)).1

/-- An address containing an at sign is not the empty string. -/
theorem mk_append_cons_ne_empty (l m : List Char) :
    String.mk (l ++ '@' :: m) ≠ "" := by
  intro h
  have hdata : l ++ '@' :: m = ("" : String).data := congrArg String.data h
  rw [show ("" : String).data = [] from rfl] at hdata
  exact absurd hdata (by simp)

/-- Claim C10: email normalization preserves the case of the local
part (only the domain segment is case-folded), so two `create_user`
calls with whitespace-free emails sharing a domain but with distinct
local parts — in particular local parts differing only in letter
case — produce two distinct coexisting accounts rather than a
uniqueness violation. -/
theorem create_user_preserves_local_case (l₁ l₂ d : List Char)
    (pw₁ pw₂ : Option String) (x₁ x₂ : ExtraFields) (hne : l₁ ≠ l₂)
    (hl₁ : ∀ c ∈ l₁, c.isWhitespace = false)
    (hl₂ : ∀ c ∈ l₂, c.isWhitespace = false)
    (hd : ∀ c ∈ d, c.isWhitespace = false ∧ c ≠ '@') :
    normalize_email (String.mk (l₁ ++ '@' :: d)) =
      String.mk (l₁ ++ '@' :: d.map Char.toLower) ∧
    ∃ u₁ s₁ u₂ s₂,
      create_user [] (some (String.mk (l₁ ++ '@' :: d))) pw₁ x₁ =
        Except.ok (u₁, s₁) ∧
      create_user s₁ (some (String.mk (l₂ ++ '@' :: d))) pw₂ x₂ =
        Except.ok (u₂, s₂) ∧
      u₁.email ≠ u₂.email ∧ s₂ = [u₁, u₂] := by
  have hn₁ := normalize_email_local_domain l₁ d hl₁ hd
  have hn₂ := normalize_email_local_domain l₂ d hl₂ hd
  have hdiff : normalize_email (String.mk (l₁ ++ '@' :: d)) ≠
      normalize_email (String.mk (l₂ ++ '@' :: d)) := by
    rw [hn₁, hn₂]
    exact mk_append_cons_ne _ _ _ hne
  refine ⟨hn₁,
    buildUser (String.mk (l₁ ++ '@' :: d)) pw₁ x₁,
    [] ++ [buildUser (String.mk (l₁ ++ '@' :: d)) pw₁ x₁],
    buildUser (String.mk (l₂ ++ '@' :: d)) pw₂ x₂,
    ([] ++ [buildUser (String.mk (l₁ ++ '@' :: d)) pw₁ x₁]) ++
      [buildUser (String.mk (l₂ ++ '@' :: d)) pw₂ x₂],
    create_user_ok_of_free (mk_append_cons_ne_empty l₁ d)
      (by intro v hv; cases hv),
    create_user_ok_of_free (mk_append_cons_ne_empty l₂ d) ?_,
    hdiff, by simp⟩
  intro v hv
  have hv₁ : v = buildUser (String.mk (l₁ ++ '@' :: d)) pw₁ x₁ := by
    simpa using hv
  rw [hv₁]
  exact hdiff

/-- Claim C10, witness at the local parts `User` and `user` over the
domain `example.com`: the normalization preserves the upper-case `U`
of the local part. -/
theorem create_user_preserves_local_case_witness :
    normalize_email (String.mk ("User".data ++ '@' :: "example.com".data)) =
      String.mk ("User".data ++ '@' :: "example.com".data.map Char.toLower) :=
  (create_user_preserves_local_case "User".data "user".data
    "example.com".data (some "p1") (some "p2") {} {}
    (by decide) (by decide) (by decide) (by decide)).1

example : normalize_email "test@EXAMPLE.COM" = "test@example.com" := by decide

example : normalize_email "User@EXAMPLE.com" = "User@example.com" := by decide

example : normalize_email "noatsign" = "noatsign" := by decide

end ISOBackend
